import Mathlib

/-!
Verification development for the multi-agent orchestration runtime
(core components: AgentMessage, Roster, ToolBase schema projection,
provider-adapter response formatting, the agent tool-call loop, the
Task message pump and the Swarm facade).

Each Python class or function of the core is shallowly embedded as an
executable Lean definition; nondeterministic inputs (uuid4, timestamps,
json library calls, hash, the LLM backend, tool execution) are passed in
as explicit parameters or oracles.  Theorems at the end of the file
settle the specified properties against these definitions.
-/

namespace Village

/-- Python JSON-like values, as used for message `content` and `metadata`
entries (`Union[str, Dict, List]`, plus `None` and numbers). Dicts are
insertion-ordered association lists, matching Python dict semantics. -/
inductive PyVal where
  | pyNone : PyVal
  | pyStr : String → PyVal
  | pyInt : Int → PyVal
  | pyList : List PyVal → PyVal
  | pyDict : List (String × PyVal) → PyVal

/-- `str(x)` for an `Optional[str]` value: Python renders `None` as the
string "None" inside f-strings and `str(...)`. -/
def pyStrOfOpt : Option String → String
  | none => "None"
  | some s => s

/-- Embedding of `AgentMessage` (src/core/agent_message/agent_message.py).
`timestamp` and `message_id` are generated at construction time
(`datetime.now().isoformat()` and `str(uuid4())`); constructors below
take them as explicit parameters. -/
structure AgentMessage where
  sender : Option String
  receiver : Option String
  next_receiver : Option String
  content : PyVal
  task_id : Option String
  token_usage : Option Int
  metadata : List (String × PyVal)
  timestamp : String
  message_id : String

/-- `AgentMessage.__init__`: stores the given fields; `metadata or {}`
replaces a falsy metadata argument (None or the empty dict) by the empty
dict.  `freshTimestamp`/`freshId` stand for `datetime.now().isoformat()`
and `str(uuid4())`. -/
def mkAgentMessage (content : PyVal) (sender receiver next_receiver task_id : Option String)
    (token_usage : Option Int) (metadata : Option (List (String × PyVal)))
    (freshTimestamp freshId : String) : AgentMessage :=
  { sender := sender
    receiver := receiver
    next_receiver := next_receiver
    content := content
    task_id := task_id
    token_usage := token_usage
    metadata := metadata.getD []
    timestamp := freshTimestamp
    message_id := freshId }

/-- The dictionary produced by `AgentMessage.to_dict`: exactly the eight
keys written by the source (note: `token_usage` is NOT among them). -/
structure MsgDict where
  message_id : String
  sender : Option String
  receiver : Option String
  next_receiver : Option String
  content : PyVal
  task_id : Option String
  metadata : List (String × PyVal)
  timestamp : String

/-- `AgentMessage.to_dict` (agent_message.py lines 36-47). -/
def AgentMessage.to_dict (m : AgentMessage) : MsgDict :=
  { message_id := m.message_id
    sender := m.sender
    receiver := m.receiver
    next_receiver := m.next_receiver
    content := m.content
    task_id := m.task_id
    metadata := m.metadata
    timestamp := m.timestamp }

/-- `AgentMessage.from_dict` (agent_message.py lines 49-62), on
dictionaries of the shape produced by `to_dict` (all eight keys present,
so every `data.get(key, default)` returns the stored value).  The
constructor call passes only `sender`, `receiver`, `content`, `task_id`
and `metadata`; `next_receiver` is never read from the dict and
`token_usage` is left at its default `0`.  `message_id` and `timestamp`
are then overwritten from the dict. -/
def AgentMessage.from_dict (freshTimestamp freshId : String) (d : MsgDict) : AgentMessage :=
  let m := mkAgentMessage d.content d.sender d.receiver none d.task_id (some 0)
    (some d.metadata) freshTimestamp freshId
  { m with message_id := d.message_id, timestamp := d.timestamp }

/-! ## Roster (src/core/swarm/roster.py) -/

/-- Embedding of `AgentCard` with the three fields the roster reads.
`oid` models Python object identity: `AgentCard` defines no `__eq__`, so
`in` / `list.remove` compare by identity; two structurally identical
cards created separately are distinct objects. `name` is optional (the
card document may omit it) and is tested for truthiness by the roster. -/
structure AgentCard where
  oid : Nat
  name : Option String
  role : String
  description : String
deriving DecidableEq, Repr

/-- Truthiness of `card.name` (`if card.name:`): `None` and the empty
string are falsy. -/
def truthyName : Option String → Bool
  | none => false
  | some s => !s.isEmpty

/-- `Roster`: the `cards` list (insertion order, used by `prompt`) and
the `agent_map` dict from name to card (insertion-ordered). -/
structure Roster where
  cards : List AgentCard
  agent_map : List (String × AgentCard)
deriving DecidableEq, Repr

/-- Python dict assignment `d[k] = v`: updates in place when the key
exists (keeping its original position), appends otherwise. -/
def assocSet (m : List (String × AgentCard)) (n : String) (c : AgentCard) :
    List (String × AgentCard) :=
  match m with
  | [] => [(n, c)]
  | (k, v) :: rest => if k = n then (n, c) :: rest else (k, v) :: assocSet rest n c

/-- Association-list lookup, mirroring `dict.get`. -/
def assocLookupCard (m : List (String × AgentCard)) (n : String) : Option AgentCard :=
  match m with
  | [] => none
  | (k, v) :: rest => if k = n then some v else assocLookupCard rest n

/-- `Roster.register_card` (roster.py lines 13-25): when the (truthy)
name is already mapped, the old card is removed from `cards`; the new
card is then appended at the END of `cards` and the map entry is
overwritten. -/
def Roster.register_card (r : Roster) (card : AgentCard) : Roster :=
  let cards1 :=
    match card.name with
    | none => r.cards
    | some n =>
      if n.isEmpty then r.cards
      else
        match assocLookupCard r.agent_map n with
        | none => r.cards
        | some old => if old ∈ r.cards then r.cards.erase old else r.cards
  let cards2 := cards1 ++ [card]
  let map2 :=
    match card.name with
    | none => r.agent_map
    | some n => if n.isEmpty then r.agent_map else assocSet r.agent_map n card
  { cards := cards2, agent_map := map2 }

/-- `Roster.get_card` (roster.py lines 36-38). -/
def Roster.get_card (r : Roster) (n : String) : Option AgentCard :=
  assocLookupCard r.agent_map n

/-- The per-card lines of `Roster.prompt`, enumerated from 1 in the
order of the `cards` list; `card.name` is rendered through an f-string
(so `None` prints as "None"). -/
def promptLines : Nat → List AgentCard → List String
  | _, [] => []
  | i, c :: rest =>
    (toString i ++ ". 名称：" ++ pyStrOfOpt c.name) ::
    ("   角色：" ++ c.role) ::
    ("   描述：" ++ c.description) ::
    "" :: promptLines (i + 1) rest

/-- `Roster.prompt` (roster.py lines 52-65). -/
def Roster.prompt (r : Roster) : String :=
  if r.cards.isEmpty then "当前没有可访问的智能体。"
  else String.intercalate "\n" ("当前可访问的智能体有：\n" :: promptLines 1 r.cards)

/-! ## ToolBase schema projection (src/core/tool/tool_base.py) -/

/-- The Python type objects a tool parameter may be annotated with. -/
inductive PyBase where
  | pyIntT | pyFloatT | pyBoolT | pyListT | pyDictT | pyTupleT | pyStrT
  | unknownT (u : String)
deriving DecidableEq, Repr

/-- A parameter annotation: a plain type, a `Union[..., None]`
(`Optional`, with `b` its first non-None member) or a `Union` without
`None`.  Python flattens nested unions, so one level suffices. -/
inductive PyTypeAnn where
  | plain (b : PyBase)
  | unionWithNone (b : PyBase)
  | unionNoNone (b : PyBase)
deriving DecidableEq, Repr

/-- The `type_map` lookup of `_map_python_type` for a plain type object;
the `.get(py_type, "string")` default maps unknown types to "string". -/
def mapBase : PyBase → String
  | .pyIntT => "integer"
  | .pyFloatT => "number"
  | .pyBoolT => "boolean"
  | .pyListT => "array"
  | .pyDictT => "object"
  | .pyTupleT => "array"
  | .pyStrT => "string"
  | .unknownT _ => "string"

/-- `ToolBase._map_python_type` (tool_base.py lines 52-79): a union
containing `None` is mapped through its first non-None member; any
other union object is absent from `type_map`, yielding the "string"
default. -/
def mapPythonType : PyTypeAnn → String
  | .plain b => mapBase b
  | .unionWithNone b => mapBase b
  | .unionNoNone _ => "string"

/-- `ToolBase._is_optional_type` (tool_base.py lines 81-85). -/
def isOptionalType : PyTypeAnn → Bool
  | .unionWithNone _ => true
  | _ => false

/-- The JSON-Schema object produced by `ToolBase._parameters`:
`properties` maps each parameter name to its (type, description) pair in
declaration order; `required` lists the non-optional names in order. -/
structure ToolParams where
  properties : List (String × String × String)
  required : List String
deriving DecidableEq, Repr

/-- The loop body of `ToolBase._parameters` (tool_base.py lines 23-50):
every parameter contributes to `properties`; only non-optional ones are
appended to `required`. -/
def buildParams : List (String × PyTypeAnn × String) → ToolParams
  | [] => { properties := [], required := [] }
  | (n, ty, d) :: rest =>
    let tail := buildParams rest
    { properties := (n, mapPythonType ty, d) :: tail.properties
      required := if isOptionalType ty then tail.required else n :: tail.required }

/-- Lookup in the `properties` mapping of the generated schema. -/
def propLookup (props : List (String × String × String)) (n : String) :
    Option (String × String) :=
  match props with
  | [] => none
  | (k, t, d) :: rest => if k = n then some (t, d) else propLookup rest n

/-! ## Provider adapters (src/core/llm_api/api_adapters.py) -/

/-- A normalized tool call entry as built by the adapters:
`(id, "function", function.name, function.arguments)`. -/
structure ToolCall where
  id : String
  ctype : String
  fname : String
  arguments : String
deriving DecidableEq, Repr

/-- The `usage` sub-dictionary of a formatted response. -/
structure UsageInfo where
  prompt_tokens : Int
  completion_tokens : Int
  total_tokens : Int
deriving DecidableEq, Repr

/-- The normalized completion dictionary returned by every adapter's
`chat_completion` (role, content, tool_calls, finish_reason, usage). -/
structure FormattedResponse where
  role : String
  content : Option String
  tool_calls : Option (List ToolCall)
  finish_reason : String
  usage : UsageInfo
deriving DecidableEq, Repr

/-- A tool call of the OpenAI SDK response object. -/
structure RawToolCallOA where
  id : String
  fname : String
  arguments : String
deriving DecidableEq, Repr

/-- `choices[0].message` of an OpenAI-compatible completion:
`content` may be null; `tool_calls` may be null or a list. -/
structure RawMessageOA where
  content : Option String
  tool_calls : Option (List RawToolCallOA)
deriving DecidableEq, Repr

/-- An OpenAI-compatible completion, restricted to the parts
`_format_response` reads (the first choice and the usage counters). -/
structure RawCompletionOA where
  message : RawMessageOA
  finish_reason : String
  usage : UsageInfo
deriving DecidableEq, Repr

/-- `OpenAICompatibleAdapter._format_response` (api_adapters.py lines
103-131): `tool_calls` starts as None and is replaced by the mapped
list only when `message.tool_calls` is truthy (non-None and
non-empty); `content` passes through unchanged and may be null. -/
def formatResponseOpenAI (r : RawCompletionOA) : FormattedResponse :=
  { role := "assistant"
    content := r.message.content
    tool_calls :=
      match r.message.tool_calls with
      | some (t :: ts) =>
        some ((t :: ts).map fun tool =>
          { id := tool.id, ctype := "function", fname := tool.fname,
            arguments := tool.arguments })
      | _ => none
    finish_reason := r.finish_reason
    usage := r.usage }

/-- A Gemini `function_call` protobuf message; as a protobuf value it
always exists on a part, and is falsy exactly when all its fields are
at their defaults. -/
structure GFunctionCall where
  name : String
  args : List (String × PyVal)

/-- Protobuf truthiness of a `function_call`. -/
def GFunctionCall.truthy (fc : GFunctionCall) : Bool :=
  !(fc.name.isEmpty && fc.args.isEmpty)

/-- One part of `candidates[0].content.parts`; `hasattr(part,
'function_call')` is always true on these protobuf objects, so the
formatter's per-part `hasattr` guard never skips a part. -/
structure GPart where
  function_call : GFunctionCall

/-- `candidates[0]` of a Gemini response. -/
structure GCandidate where
  parts : List GPart
  finish_reason : String

/-- A Gemini response, restricted to the parts `_format_response`
reads. `text` models the `response.text` property: `none` stands for
the `ValueError` it raises when no text is available (the formatter
turns that into `content = None`). -/
structure RawGeminiResponse where
  candidate : GCandidate
  text : Option String
  usage : UsageInfo

/-- `GoogleGeminiAdapter._format_response` (api_adapters.py lines
296-341).  `dumps` stands for `json.dumps(dict(fc.args),
ensure_ascii=False)` and `pyHash` for Python's `hash` on the arguments
string; the synthetic id is `call_<name>_<abs(hash(args))>`.  When the
first part carries a truthy `function_call`, every part is mapped into
the `tool_calls` list; otherwise `content` is `response.text`, or null
when that raises. -/
def formatResponseGemini (dumps : List (String × PyVal) → String)
    (pyHash : String → Int) (r : RawGeminiResponse) : FormattedResponse :=
  let parts := r.candidate.parts
  let tool_calls : Option (List ToolCall) :=
    match parts with
    | p :: _ =>
      if p.function_call.truthy then
        some (parts.map fun part =>
          let fc := part.function_call
          let argsJson := dumps fc.args
          { id := "call_" ++ fc.name ++ "_" ++ toString (pyHash argsJson).natAbs
            ctype := "function", fname := fc.name, arguments := argsJson })
      else none
    | [] => none
  let content : Option String :=
    match tool_calls with
    | some _ => none
    | none => r.text
  { role := "assistant"
    content := content
    tool_calls := tool_calls
    finish_reason := r.candidate.finish_reason
    usage := r.usage }

/-! ## Agent tool-call loop (src/core/agent/agent_base.py) -/

/-- Truthiness of `response.get("tool_calls")`: the key always holds
either None or a list in a formatted response, and an empty list is
falsy. -/
def hasToolCalls (r : FormattedResponse) : Bool :=
  match r.tool_calls with
  | some (_ :: _) => true
  | _ => false

/-- Entries of the working message list handled by the loop: the
initial prompt messages, appended assistant messages (carrying their
tool calls) and tool-role messages. -/
inductive PyMsg where
  | plain (role : String) (content : Option String)
  | assistant (content : Option String) (tool_calls : List ToolCall)
  | toolMsg (tool_call_id : String) (content : String)

/-- One entry of the list returned by `_execute_tool_calls`. -/
structure ToolResult (α : Type) where
  tool_name : String
  arguments : α
  status : String
  content : String

/-- The external collaborators of the tool loop over an argument-dict
type `α`: the json library (`loads` returning `none` on parse failure,
`dumps` to render), the empty dict used as parse-failure fallback, and
the tool registry, where a tool's entry is its `run` coroutine composed
with `str` (an `Except.error` models a raised exception). -/
structure ToolEnv (α : Type) where
  jsonLoads : String → Option α
  jsonDumps : α → String
  emptyArgs : α
  runTool : String → Option (α → Except String String)

/-- `AgentBase._parse_tool_arguments` (agent_base.py lines 275-283):
json decode failure falls back to the empty dict. -/
def parseToolArguments {α : Type} (env : ToolEnv α) (call : ToolCall) : α :=
  (env.jsonLoads call.arguments).getD env.emptyArgs

/-- `AgentBase._execute_tool_calls` (agent_base.py lines 237-273):
sequentially executes each call; an unknown tool or a raising tool
yields a `status: "error"` result instead of propagating. -/
def execToolCalls {α : Type} (env : ToolEnv α) : List ToolCall → List (ToolResult α)
  | [] => []
  | call :: rest =>
    let args := parseToolArguments env call
    let res : ToolResult α :=
      match env.runTool call.fname with
      | none =>
        { tool_name := call.fname, arguments := args, status := "error"
          content := "工具未找到: " ++ call.fname }
      | some run =>
        match run args with
        | .ok value =>
          { tool_name := call.fname, arguments := args, status := "success"
            content := value }
        | .error e =>
          { tool_name := call.fname, arguments := args, status := "error"
            content := "执行错误: " ++ e }
    res :: execToolCalls env rest

/-- The text block of one tool-role message. -/
def toolResultText {α : Type} (env : ToolEnv α) (res : ToolResult α) : String :=
  "工具调用结果:\n" ++
  "- 工具名称: " ++ res.tool_name ++ "\n" ++
  "- 参数: " ++ env.jsonDumps res.arguments ++ "\n" ++
  "- 状态: " ++ res.status ++ "\n" ++
  "- 结果: " ++ res.content ++ "\n"

/-- `AgentBase._build_tool_response_messages` (agent_base.py lines
285-309): zips the response's tool calls with the results, producing
one tool-role message per call with `tool_call_id` set to that call's
id, in the same order. -/
def buildToolResponseMessages {α : Type} (env : ToolEnv α)
    (results : List (ToolResult α)) (original : FormattedResponse) : List PyMsg :=
  (List.zip (original.tool_calls.getD []) results).map fun (call, res) =>
    PyMsg.toolMsg call.id (toolResultText env res)

/-- The value returned by `_execute_tool_calls_loop`: either a plain
formatted response, or the error wrap
`{error: ..., last_response: ...}` built at the call cap. -/
inductive LoopResult where
  | done (r : FormattedResponse)
  | errorWrap (error : String) (last_response : FormattedResponse)

/-- The error text of the wrap, with the cap interpolated. -/
def loopErrorText (maxFC : Nat) : String :=
  "达到最大工具调用次数限制 (" ++ toString maxFC ++ ")"

/-- One loop body's extension of the working message list: append the
assistant message (with `content` defaulted through
`response.get("content", "")`, which returns the stored value, and
carrying the response's `tool_calls`) followed by the tool-role
messages. -/
def extendWorkingMessages {α : Type} (env : ToolEnv α) (wm : List PyMsg)
    (response : FormattedResponse) : List PyMsg :=
  (wm ++ [PyMsg.assistant response.content (response.tool_calls.getD [])]) ++
    buildToolResponseMessages env (execToolCalls env (response.tool_calls.getD [])) response

/-- The while-loop of `AgentBase._execute_tool_calls_loop` (agent_base.py
lines 199-235).  `chat` is the provider oracle (a function of the
working message list, covering any backend behaviour); the second
component of the result counts the completion requests the loop itself
issues (each loop-body iteration issues exactly one).  The loop runs
while `iteration <= max_function_calls` and the current response is
truthy on `tool_calls`; afterwards, if the cap was exceeded and the
last response still carries tool calls, the error wrap is returned. -/
def toolCallsLoopAux {α : Type} (env : ToolEnv α) (chat : List PyMsg → FormattedResponse)
    (maxFC : Nat) (wm : List PyMsg) (iteration reqs : Nat)
    (response : FormattedResponse) : LoopResult × Nat :=
  if h : iteration ≤ maxFC ∧ hasToolCalls response then
    toolCallsLoopAux env chat maxFC (extendWorkingMessages env wm response)
      (iteration + 1) (reqs + 1) (chat (extendWorkingMessages env wm response))
  else
    if iteration > maxFC ∧ hasToolCalls response then
      (.errorWrap (loopErrorText maxFC) response, reqs)
    else
      (.done response, reqs)
termination_by maxFC + 1 - iteration
decreasing_by
  omega

/-- `AgentBase._execute_tool_calls_loop` entry: starts from the
caller-supplied initial response with `iteration = 0` on a copy of the
caller's message list. -/
def execToolCallsLoop {α : Type} (env : ToolEnv α) (chat : List PyMsg → FormattedResponse)
    (maxFC : Nat) (messages : List PyMsg) (response : FormattedResponse) :
    LoopResult × Nat :=
  toolCallsLoopAux env chat maxFC messages 0 0 response

/-! ## Task — the message pump (src/core/swarm/task.py) -/

/-- An agent as seen by the pump: its card name (`agent.card.name`,
optional), the task id Swarm binding writes into it, and its `invoke`
behaviour.  `invoke` is an abstract method of `AgentBase`; a behaviour
is modelled as a function of the observable trace (the task's message
history at call time) and the inbound message, returning either a raised
exception (`Except.error`), `None`, or a reply message — this covers
every sequence of concrete agent behaviours. -/
structure Agent where
  cardName : Option String
  taskId : Option String
  behavior : List AgentMessage → AgentMessage → Except String (Option AgentMessage)

/-- Lookup in the task's agents dict (keys are `Optional[str]`, the
cards' names). -/
def assocLookupAgent (agents : List (Option String × Agent)) (k : Option String) :
    Option Agent :=
  match agents with
  | [] => none
  | (k2, a) :: rest => if k2 = k then some a else assocLookupAgent rest k

/-- `Task.get_agent` (task.py lines 42-53): a `None` name resolves to
the agent keyed "Eric" when present (agent objects are always truthy),
else to the first agent in insertion order, else `None`; a concrete
name is a plain dict lookup. -/
def Task.get_agent (agents : List (Option String × Agent)) :
    Option String → Option Agent
  | none =>
    match assocLookupAgent agents (some "Eric") with
    | some a => some a
    | none => agents.head?.map (fun p => p.2)
  | some n => assocLookupAgent agents (some n)

/-- `Task.MAX_ITERATIONS` (task.py line 14). -/
def MAX_ITERATIONS : Nat := 50

/-- The mutable pump state: the pending `message_pool`, the
`message_history`, the local `iterations` counter, and a counter
feeding the uuid/timestamp supply for messages the pump itself
creates. -/
structure TaskState where
  pool : List AgentMessage
  history : List AgentMessage
  iterations : Nat
  freshCounter : Nat

/-- The immutable task context: its id, its agents dict, the history
snapshot serializer (the body of the `write_text(json.dumps(...))`
line), and the uuid/timestamp supply for pump-created messages. -/
structure TaskCfg where
  task_id : String
  agents : List (Option String × Agent)
  dump : List AgentMessage → Except String (List MsgDict)
  genTimestamp : Nat → String
  genId : Nat → String

/-- Faithful snapshot serialization: the source evaluates
`message.model_dump()` for every history entry, but `AgentMessage`
defines no `model_dump` method (its serializer is named `to_dict`), so
serializing a nonempty history raises `AttributeError`. -/
def dumpModelDump : List AgentMessage → Except String (List MsgDict)
  | [] => .ok []
  | _ :: _ => .error "AttributeError: AgentMessage object has no attribute model_dump"

/-- The intended snapshot serialization, through
`AgentMessage.to_dict`; it is total. -/
def dumpToDict (hist : List AgentMessage) : Except String (List MsgDict) :=
  .ok (hist.map AgentMessage.to_dict)

/-- The system message synthesized when a receiver is not found
(task.py lines 109-114). -/
def notFoundMessage (cfg : TaskCfg) (recv : Option String) (k : Nat) : AgentMessage :=
  mkAgentMessage (.pyStr ("智能体 " ++ pyStrOfOpt recv ++ " 未找到"))
    (some "system") (some "Eric") none (some cfg.task_id) (some 0) none
    (cfg.genTimestamp k) (cfg.genId k)

/-- The message synthesized when an agent raises (task.py lines
137-142); its sender is `str(agent.card.name)`. -/
def agentErrorMessage (cfg : TaskCfg) (ag : Agent) (recv : Option String)
    (e : String) (k : Nat) : AgentMessage :=
  mkAgentMessage (.pyStr ("智能体 " ++ pyStrOfOpt recv ++ " 处理消息时出错: " ++ e))
    (some (pyStrOfOpt ag.cardName)) (some "Eric") none (some cfg.task_id) (some 0) none
    (cfg.genTimestamp k) (cfg.genId k)

/-- The terminal message built after the while loop (task.py lines
152-157), reporting `len(self.message_history)`. -/
def timeoutMessage (cfg : TaskCfg) (histLen : Nat) (k : Nat) : AgentMessage :=
  mkAgentMessage (.pyStr ("任务处理超时，已处理 " ++ toString histLen ++ " 条消息"))
    (some "system") (some "user") none (some cfg.task_id) (some 0) none
    (cfg.genTimestamp k) (cfg.genId k)

/-- The possible outcomes of running the pump with a given amount of
fuel.  The Python loop is not structurally bounded (the agent-not-found
branch neither returns nor increments `iterations`), so the embedding
counts executed loop bodies as fuel; `outOfFuel` marks runs longer than
the given bound.  `raised` is an exception escaping the pump. -/
inductive PumpOutcome where
  | result : AgentMessage → TaskState → PumpOutcome
  | raised : String → TaskState → PumpOutcome
  | outOfFuel : TaskState → PumpOutcome

/-- `Task._process_messages` (task.py lines 77-157).  Each executed loop
body: an empty pool counts an iteration and continues; otherwise the
head message is dequeued, appended to history, and the history snapshot
is serialized (a failure there escapes the pump — nothing catches it).
A "user"-addressed message returns.  An unresolved receiver enqueues a
not-found system message and continues WITHOUT incrementing
`iterations`.  An agent exception is converted to a coordinator-addressed
error message; a `None` reply breaks out of the loop.  Leaving the loop
(guard false or break) returns the timeout message reporting the current
history length. -/
def processAux (cfg : TaskCfg) : Nat → TaskState → PumpOutcome
  | 0, s =>
    if s.iterations < MAX_ITERATIONS then .outOfFuel s
    else
      .result (timeoutMessage cfg s.history.length s.freshCounter)
        { s with freshCounter := s.freshCounter + 1 }
  | fuel + 1, s =>
    if s.iterations < MAX_ITERATIONS then
      match s.pool with
        | [] => processAux cfg fuel { s with iterations := s.iterations + 1 }
        | m :: rest =>
          let s1 : TaskState := { s with pool := rest, history := s.history ++ [m] }
          match cfg.dump s1.history with
          | .error e => .raised e s1
          | .ok _ =>
            if m.receiver = some "user" then .result m s1
            else
              match Task.get_agent cfg.agents m.receiver with
              | none =>
                processAux cfg fuel
                  { s1 with
                    pool := s1.pool ++ [notFoundMessage cfg m.receiver s1.freshCounter]
                    freshCounter := s1.freshCounter + 1 }
              | some ag =>
                match ag.behavior s1.history m with
                | .error e =>
                  processAux cfg fuel
                    { s1 with
                      pool := s1.pool ++ [agentErrorMessage cfg ag m.receiver e s1.freshCounter]
                      freshCounter := s1.freshCounter + 1
                      iterations := s1.iterations + 1 }
                | .ok none =>
                  .result (timeoutMessage cfg s1.history.length s1.freshCounter)
                    { s1 with freshCounter := s1.freshCounter + 1 }
                | .ok (some r) =>
                  processAux cfg fuel
                    { s1 with
                      pool := s1.pool ++ [r]
                      iterations := s1.iterations + 1 }
    else
      .result (timeoutMessage cfg s.history.length s.freshCounter)
        { s with freshCounter := s.freshCounter + 1 }

/-- The initial user message of `Task.invoke` (task.py lines 65-70). -/
def initialUserMessage (cfg : TaskCfg) (userInput : String) (k : Nat) : AgentMessage :=
  mkAgentMessage (.pyStr userInput) (some "user") (some "Eric") none (some cfg.task_id)
    (some 0) none (cfg.genTimestamp k) (cfg.genId k)

/-- `Task.invoke` (task.py lines 55-75): enqueue the user message and
enter the pump on the fresh state. -/
def Task.invoke (cfg : TaskCfg) (fuel : Nat) (userInput : String) : PumpOutcome :=
  processAux cfg fuel
    { pool := [initialUserMessage cfg userInput 0]
      history := []
      iterations := 0
      freshCounter := 1 }

/-! ## Swarm (src/core/swarm/swarm.py) -/

/-- The snapshot path chosen in `Task.__init__` (task.py line 39),
relative to the data root. -/
def messageHistoryPath (taskId : String) : String :=
  ".data/" ++ taskId ++ "/message_history.json"

/-- The claim-relevant state of a constructed `Task` object: the
internally generated `task_id` and the bound agents. -/
structure SwarmTask where
  task_id : String
  boundAgents : List (Option String × Agent)

/-- The agent binding performed by `Task.__init__` (task.py lines
30-34): every agent's `task_id` attribute is set to the task's id. -/
def bindAgents (tid : String) (agents : List (Option String × Agent)) :
    List (Option String × Agent) :=
  agents.map fun p => (p.1, { p.2 with taskId := some tid })

/-- `Task.__init__` (task.py lines 16-40): the task id is a fresh
`str(uuid.uuid4())` — passed here as `freshUuid` — regardless of how the
task is keyed in the swarm. -/
def SwarmTask.new (agents : List (Option String × Agent)) (freshUuid : String) :
    SwarmTask :=
  { task_id := freshUuid, boundAgents := bindAgents freshUuid agents }

/-- The swarm facade state: the name-indexed agent dict and the
task-id-indexed task dict. -/
structure Swarm where
  agents : List (Option String × Agent)
  tasks : List (String × SwarmTask)

/-- Lookup in the swarm's tasks dict. -/
def assocLookupTask (tasks : List (String × SwarmTask)) (k : String) :
    Option SwarmTask :=
  match tasks with
  | [] => none
  | (k2, t) :: rest => if k2 = k then some t else assocLookupTask rest k

/-- The task-selection part of `Swarm.invoke` (swarm.py lines 26-31):
a missing `task_id` argument is replaced by a fresh uuid
(`freshKeyUuid`); when the key has no task yet, a new `Task` is created
(drawing its OWN fresh uuid, `freshTaskUuid`) and stored under the key.
Returns the updated swarm, the key used, and the task that
`Task.invoke` is then delegated to. -/
def Swarm.invokeSetup (sw : Swarm) (freshKeyUuid freshTaskUuid : String)
    (task_id : Option String) : Swarm × String × SwarmTask :=
  let key := match task_id with
    | none => freshKeyUuid
    | some t => t
  match assocLookupTask sw.tasks key with
  | some t => (sw, key, t)
  | none =>
    let t := SwarmTask.new sw.agents freshTaskUuid
    ({ sw with tasks := sw.tasks ++ [(key, t)] }, key, t)

/-! ## Concrete sample values used by witnesses and counterexamples -/

/-- The pump state carried by every `PumpOutcome`. -/
def PumpOutcome.stateOf : PumpOutcome → TaskState
  | .result _ s => s
  | .raised _ s => s
  | .outOfFuel s => s

/-- A sample message with every optional field populated. -/
def c2SampleMessage : AgentMessage :=
  { sender := some "Eric", receiver := some "Bob", next_receiver := some "Robin"
    content := .pyStr "hello", task_id := some "tid-1", token_usage := some 7
    metadata := [("k", .pyStr "v")], timestamp := "2025-01-01T00:00:00"
    message_id := "mid-1" }

/-- Three cards: `cardA2` reuses the name of `cardA`. -/
def cardA : AgentCard := { oid := 0, name := some "Alice", role := "r1", description := "d1" }

def cardB : AgentCard := { oid := 1, name := some "Bob", role := "r2", description := "d2" }

def cardA2 : AgentCard := { oid := 2, name := some "Alice", role := "r3", description := "d3" }

/-- The roster after registering Alice then Bob. -/
def c6Base : Roster :=
  ((Roster.mk [] []).register_card cardA).register_card cardB

/-- Register Alice, Bob, then a second card named Alice. -/
def c6Roster : Roster :=
  c6Base.register_card cardA2

/-- An OpenAI-compatible completion carrying one tool call. -/
def c7SampleRawOA : RawCompletionOA :=
  { message :=
      { content := none
        tool_calls := some [{ id := "c1", fname := "shell", arguments := "\x7b\x7d" }] }
    finish_reason := "tool_calls"
    usage := { prompt_tokens := 10, completion_tokens := 5, total_tokens := 15 } }

/-- A Gemini response with no parts and no text available
(`response.text` raises): the formatter yields content = None AND
tool_calls = None. -/
def c7GeminiBlank : RawGeminiResponse :=
  { candidate := { parts := [], finish_reason := "SAFETY" }
    text := none
    usage := { prompt_tokens := 1, completion_tokens := 0, total_tokens := 1 } }

/-- A trivial tool environment over string-rendered argument dicts. -/
def c4Env : ToolEnv String :=
  { jsonLoads := fun s => some s
    jsonDumps := fun s => s
    emptyArgs := "\x7b\x7d"
    runTool := fun _ => none }

/-- A formatted response that carries a tool call. -/
def c4Resp : FormattedResponse :=
  { role := "assistant", content := none
    tool_calls := some [{ id := "c1", ctype := "function", fname := "shell",
                          arguments := "\x7b\x7d" }]
    finish_reason := "tool_calls"
    usage := { prompt_tokens := 10, completion_tokens := 5, total_tokens := 15 } }

/-- A provider oracle that emits tool calls on every round. -/
def c4Chat : List PyMsg → FormattedResponse := fun _ => c4Resp

/-- A tool-parameter declaration with one required and one optional
parameter. -/
def c8Params : List (String × PyTypeAnn × String) :=
  [("path", PyTypeAnn.plain .pyStrT, "file path"),
   ("timeout", PyTypeAnn.unionWithNone .pyIntT, "optional timeout")]

/-- An agent behaviour echoing the inbound message back. -/
def echoBehavior : List AgentMessage → AgentMessage → Except String (Option AgentMessage) :=
  fun _ m => .ok (some m)

/-- A coordinator agent with the echo behaviour. -/
def ericAgent : Agent :=
  { cardName := some "Eric", taskId := none, behavior := echoBehavior }

/-- A single registered coordinator agent. -/
def c1Agents : List (Option String × Agent) :=
  [(some "Eric", ericAgent)]

/-- A task over `c1Agents` with the FAITHFUL snapshot serializer. -/
def c1Cfg : TaskCfg :=
  { task_id := "task-c1"
    agents := c1Agents
    dump := dumpModelDump
    genTimestamp := fun k => "ts-" ++ toString k
    genId := fun k => "id-" ++ toString k }

/-- A fixed reply addressed to the coordinator (never to "user"). -/
def pingMessage : AgentMessage :=
  mkAgentMessage (.pyStr "ping") (some "Eric") (some "Eric") none (some "task-c3")
    (some 0) none "bts" "bid"

/-- A behaviour that always replies with `pingMessage`. -/
def pingBehavior : List AgentMessage → AgentMessage → Except String (Option AgentMessage) :=
  fun _ _ => .ok (some pingMessage)

/-- A coordinator agent with the ping behaviour. -/
def pingAgent : Agent :=
  { cardName := some "Eric", taskId := none, behavior := pingBehavior }

/-- A coordinator that ping-pongs to itself forever. -/
def c3Agents : List (Option String × Agent) :=
  [(some "Eric", pingAgent)]

/-- The ping-pong task with the faithful serializer. -/
def c3CfgFaithful : TaskCfg :=
  { task_id := "task-c3"
    agents := c3Agents
    dump := dumpModelDump
    genTimestamp := fun k => "ts-" ++ toString k
    genId := fun k => "id-" ++ toString k }

/-- The ping-pong task with the intended `to_dict` serializer. -/
def c3CfgFixed : TaskCfg :=
  { task_id := "task-c3"
    agents := c3Agents
    dump := dumpToDict
    genTimestamp := fun k => "ts-" ++ toString k
    genId := fun k => "id-" ++ toString k }

/-- A message addressed to an unregistered agent. -/
def ghostMessage : AgentMessage :=
  mkAgentMessage (.pyStr "boo") (some "Eric") (some "Ghost") none (some "task-c5")
    (some 0) none "gts" "gid"

/-- A task (faithful serializer) whose only registered agent is the
coordinator. -/
def c5CfgFaithful : TaskCfg :=
  { task_id := "task-c5"
    agents := c1Agents
    dump := dumpModelDump
    genTimestamp := fun k => "ts-" ++ toString k
    genId := fun k => "id-" ++ toString k }

/-- The same task with the intended serializer. -/
def c5CfgFixed : TaskCfg :=
  { task_id := "task-c5"
    agents := c1Agents
    dump := dumpToDict
    genTimestamp := fun k => "ts-" ++ toString k
    genId := fun k => "id-" ++ toString k }

/-- A pump state about to process `ghostMessage`. -/
def c5State : TaskState :=
  { pool := [ghostMessage], history := [], iterations := 0, freshCounter := 0 }

/-- A message whose receiver field is absent (None). -/
def noReceiverMessage : AgentMessage :=
  mkAgentMessage (.pyStr "route me") (some "Bob") none none (some "task-c10")
    (some 0) none "nts" "nid"

/-- A task (faithful serializer) for the receiver-None scenario. -/
def c10CfgFaithful : TaskCfg :=
  { task_id := "task-c10"
    agents := c1Agents
    dump := dumpModelDump
    genTimestamp := fun k => "ts-" ++ toString k
    genId := fun k => "id-" ++ toString k }

/-- The same task with the intended serializer. -/
def c10CfgFixed : TaskCfg :=
  { task_id := "task-c10"
    agents := c1Agents
    dump := dumpToDict
    genTimestamp := fun k => "ts-" ++ toString k
    genId := fun k => "id-" ++ toString k }

/-- A pump state about to process `noReceiverMessage`. -/
def c10State : TaskState :=
  { pool := [noReceiverMessage], history := [], iterations := 0, freshCounter := 0 }

/-- A swarm with one registered agent and no tasks. -/
def c9Swarm : Swarm :=
  { agents := c1Agents, tasks := [] }

/-! ## Helper lemmas -/

theorem assocSet_lookup (m : List (String × AgentCard)) (n : String) (c : AgentCard) :
    assocLookupCard (assocSet m n c) n = some c := by
  induction m with
  | nil => simp [assocSet, assocLookupCard]
  | cons p rest ih =>
    obtain ⟨k, v⟩ := p
    by_cases h : k = n
    · simp [assocSet, h, assocLookupCard]
    · simp [assocSet, h, assocLookupCard, ih]

theorem getLast?_append_singleton (l : List AgentCard) (c : AgentCard) :
    (l ++ [c]).getLast? = some c := by
  simp [List.getLast?_concat]

theorem buildParams_required_subset (params : List (String × PyTypeAnn × String)) :
    ∀ x ∈ (buildParams params).required, x ∈ params.map (fun p => p.1) := by
  induction params with
  | nil => intro x hx; simp [buildParams] at hx
  | cons p rest ih =>
    obtain ⟨pn, pty, pd⟩ := p
    intro x hx
    simp only [buildParams] at hx
    by_cases hopt : isOptionalType pty
    · simp only [hopt, if_pos] at hx
      simp only [List.map_cons, List.mem_cons]
      exact Or.inr (ih x hx)
    · simp only [hopt, if_neg, Bool.false_eq_true, ite_false] at hx
      simp only [List.map_cons, List.mem_cons]
      rcases List.mem_cons.mp hx with h | h
      · exact Or.inl h
      · exact Or.inr (ih x h)

/-! ## C2 — message serialization round-trip -/

/-- C2 (amended): `from_dict ∘ to_dict` preserves sender, receiver,
content, task_id, metadata, message_id and timestamp, but resets
`next_receiver` to None (from_dict never reads it) and `token_usage` to
0 (to_dict never writes it). -/
theorem c2_roundtrip_amended (m : AgentMessage) (ts fid : String) :
    AgentMessage.from_dict ts fid m.to_dict =
      { m with next_receiver := none, token_usage := some 0 } := rfl

/-- C2 counterexample: the round-trip is NOT the identity — a message
with a populated `next_receiver` (and a nonzero `token_usage`) does not
come back equal to itself. -/
theorem c2_roundtrip_counterexample :
    AgentMessage.from_dict "t2" "i2" c2SampleMessage.to_dict ≠ c2SampleMessage := by
  intro h
  have h2 := congrArg AgentMessage.next_receiver h
  exact absurd h2 (by simp [AgentMessage.from_dict, AgentMessage.to_dict, mkAgentMessage,
    c2SampleMessage])

/-! ## C6 — roster duplicate registration -/

/-- C6 (amended): registering a card whose (truthy) name is already
bound replaces the prior binding — lookup yields the new card and the
prior card is no longer in the enumerated `cards` list — but the
replaced name does NOT keep its original position: the new card is
appended at the END of the enumeration (most-recent-registration
order).  The total number of enumerated cards is unchanged. -/
theorem c6_register_replace_amended (r : Roster) (card old : AgentCard) (n : String)
    (hname : card.name = some n) (hne : n.isEmpty = false)
    (hlook : assocLookupCard r.agent_map n = some old)
    (hmem : old ∈ r.cards) (hcount : r.cards.count old = 1) (hold : old ≠ card) :
    (r.register_card card).get_card n = some card ∧
    old ∉ (r.register_card card).cards ∧
    (r.register_card card).cards.getLast? = some card ∧
    (r.register_card card).cards.length = r.cards.length := by
  unfold Roster.register_card Roster.get_card
  rw [hname]
  simp only [hne, Bool.false_eq_true, ite_false, hlook, hmem, ite_true, if_pos]
  refine ⟨assocSet_lookup _ _ _, ?_, getLast?_append_singleton _ _, ?_⟩
  · intro hcontra
    rcases List.mem_append.mp hcontra with hin | hin
    · have : (r.cards.erase old).count old = r.cards.count old - 1 :=
        List.count_erase_self old r.cards
      rw [hcount] at this
      have hz : (r.cards.erase old).count old = 0 := this
      have := List.count_pos_iff.mpr hin
      omega
    · exact hold (List.mem_singleton.mp hin)
  · have hlen : (r.cards.erase old).length = r.cards.length - 1 :=
      List.length_erase_of_mem hmem
    have hpos : 0 < r.cards.length := List.length_pos_of_mem hmem
    simp [List.length_append, hlen]
    omega

/-- C6 counterexample: after registering Alice, Bob, then a new card
named Alice, the enumeration (and thus `Roster.prompt`) lists Bob FIRST
and the new Alice LAST — the replaced name does not keep its original
first position. -/
theorem c6_counterexample :
    c6Roster.cards.map (fun c => c.name) = [some "Bob", some "Alice"] ∧
    c6Roster.cards.map (fun c => c.name) ≠ [some "Alice", some "Bob"] ∧
    c6Roster.prompt =
      "当前可访问的智能体有：\n\n1. 名称：Bob\n   角色：r2\n   描述：d2\n\n2. 名称：Alice\n   角色：r3\n   描述：d3\n" := by
  refine ⟨rfl, ?_, rfl⟩
  decide

/-- C6 witness: re-registering the Alice name over the concrete
Alice/Bob roster. -/
theorem c6_register_replace_witness :
    (c6Base.register_card cardA2).get_card "Alice" = some cardA2 ∧
    cardA ∉ (c6Base.register_card cardA2).cards ∧
    (c6Base.register_card cardA2).cards.getLast? = some cardA2 ∧
    (c6Base.register_card cardA2).cards.length = c6Base.cards.length :=
  c6_register_replace_amended c6Base cardA2 cardA "Alice" rfl (by decide) (by decide)
    (by decide) (by decide) (by decide)

/-! ## C7 — adapter response invariant -/

/-- C7 (amended): for both `_format_response` implementations, a
non-null `tool_calls` list always has length ≥ 1; but the second half
of the claim fails — `content` may be null even when `tool_calls` is
null (see the counterexample). -/
theorem c7_toolcalls_nonempty :
    (∀ r : RawCompletionOA, ∀ l, (formatResponseOpenAI r).tool_calls = some l →
        1 ≤ l.length) ∧
    (∀ (dumps : List (String × PyVal) → String) (pyHash : String → Int)
        (r : RawGeminiResponse), ∀ l,
        (formatResponseGemini dumps pyHash r).tool_calls = some l → 1 ≤ l.length) := by
  constructor
  · intro r l h
    rcases hm : r.message.tool_calls with _ | l2
    · simp [formatResponseOpenAI, hm] at h
    · rcases l2 with _ | ⟨t, ts⟩
      · simp [formatResponseOpenAI, hm] at h
      · simp [formatResponseOpenAI, hm] at h
        subst h
        simp
  · intro dumps pyHash r l h
    rcases hp : r.candidate.parts with _ | ⟨p, ps⟩
    · simp [formatResponseGemini, hp] at h
    · by_cases ht : p.function_call.truthy
      · simp [formatResponseGemini, hp, ht] at h
        subst h
        simp [hp]
      · simp [formatResponseGemini, hp, ht] at h

/-- C7 witness: the OpenAI branch applied to a concrete one-call
completion. -/
theorem c7_toolcalls_nonempty_witness :
    1 ≤ ((formatResponseOpenAI c7SampleRawOA).tool_calls.getD []).length := by
  have h := c7_toolcalls_nonempty.1 c7SampleRawOA
    ((formatResponseOpenAI c7SampleRawOA).tool_calls.getD []) rfl
  exact h

/-- C7 counterexample: a Gemini response with no function-call parts
and unavailable text formats to a completion whose `content` AND
`tool_calls` are both null — refuting "one or the other, not
neither". -/
theorem c7_counterexample :
    (formatResponseGemini (fun _ => "") (fun _ => 0) c7GeminiBlank).content = none ∧
    (formatResponseGemini (fun _ => "") (fun _ => 0) c7GeminiBlank).tool_calls = none :=
  ⟨rfl, rfl⟩

/-! ## C8 — optional parameters in the tool schema -/

/-- C8 (confirmed): in the projected JSON-Schema, every declared
parameter appears in `properties`; an optional parameter (`Union[T,
None]`) is emitted with the schema name of its base type `T` and is NOT
in `required`; every non-optional parameter IS in `required`. -/
theorem c8_optional_not_required (params : List (String × PyTypeAnn × String))
    (hnd : (params.map (fun p => p.1)).Nodup) :
    ∀ n ty d, (n, ty, d) ∈ params →
      propLookup (buildParams params).properties n = some (mapPythonType ty, d) ∧
      (isOptionalType ty = true → n ∉ (buildParams params).required) ∧
      (isOptionalType ty = false → n ∈ (buildParams params).required) ∧
      (∀ b, ty = PyTypeAnn.unionWithNone b → mapPythonType ty = mapPythonType (.plain b)) := by
  induction params with
  | nil => intro n ty d h; cases h
  | cons p rest ih =>
    obtain ⟨pn, pty, pd⟩ := p
    simp only [List.map_cons, List.nodup_cons] at hnd
    obtain ⟨hpn, hnd2⟩ := hnd
    intro n ty d hmem
    rcases List.mem_cons.mp hmem with heq | htail
    · cases heq
      refine ⟨?_, ?_, ?_, ?_⟩
      · simp [buildParams, propLookup]
      · intro hopt hin
        simp only [buildParams, hopt, ite_true] at hin
        exact hpn (buildParams_required_subset rest _ hin)
      · intro hopt
        simp [buildParams, hopt]
      · intro b hb; subst hb; rfl
    · have hn : n ∈ rest.map (fun p => p.1) :=
        List.mem_map.mpr ⟨(n, ty, d), htail, rfl⟩
      have hne : pn ≠ n := fun hcontra => hpn (hcontra ▸ hn)
      obtain ⟨h1, h2, h3, h4⟩ := ih hnd2 n ty d htail
      refine ⟨?_, ?_, ?_, h4⟩
      · simp [buildParams, propLookup, hne, h1]
      · intro hopt hin
        simp only [buildParams] at hin
        by_cases hopt2 : isOptionalType pty
        · simp only [hopt2, ite_true] at hin
          exact h2 hopt hin
        · simp only [hopt2, Bool.false_eq_true, ite_false] at hin
          rcases List.mem_cons.mp hin with h | h
          · exact hne h.symm
          · exact h2 hopt h
      · intro hopt
        simp only [buildParams]
        by_cases hopt2 : isOptionalType pty
        · simp only [hopt2, ite_true]
          exact h3 hopt
        · simp only [hopt2, Bool.false_eq_true, ite_false]
          exact List.mem_cons_of_mem _ (h3 hopt)

/-- C8 witness: applied to a concrete two-parameter declaration. -/
theorem c8_optional_not_required_witness :
    propLookup (buildParams c8Params).properties "timeout" =
      some ("integer", "optional timeout") ∧
    "timeout" ∉ (buildParams c8Params).required ∧
    "path" ∈ (buildParams c8Params).required := by
  refine ⟨?_, ?_, ?_⟩
  · exact (c8_optional_not_required c8Params (by decide) "timeout"
      (PyTypeAnn.unionWithNone .pyIntT) "optional timeout" (by decide)).1
  · exact (c8_optional_not_required c8Params (by decide) "timeout"
      (PyTypeAnn.unionWithNone .pyIntT) "optional timeout" (by decide)).2.1 rfl
  · exact (c8_optional_not_required c8Params (by decide) "path"
      (PyTypeAnn.plain .pyStrT) "file path" (by decide)).2.2.1 rfl

/-! ## C4 — tool-call loop request count -/

theorem toolCallsLoopAux_reqs_le {α : Type} (env : ToolEnv α)
    (chat : List PyMsg → FormattedResponse) (maxFC : Nat) :
    ∀ k it wm reqs resp, maxFC + 1 - it ≤ k →
      (toolCallsLoopAux env chat maxFC wm it reqs resp).2 ≤ reqs + (maxFC + 1 - it) := by
  intro k
  induction k with
  | zero =>
    intro it wm reqs resp hk
    rw [toolCallsLoopAux]
    rw [dif_neg (by intro hc; omega)]
    split <;> simp
  | succ k ih =>
    intro it wm reqs resp hk
    rw [toolCallsLoopAux]
    by_cases h : it ≤ maxFC ∧ hasToolCalls resp = true
    · rw [dif_pos h]
      have hrec := ih (it + 1) (extendWorkingMessages env wm resp) (reqs + 1)
        (chat (extendWorkingMessages env wm resp)) (by omega)
      have hle : maxFC + 1 - (it + 1) + 1 = maxFC + 1 - it := by omega
      omega
    · rw [dif_neg h]
      split <;> simp

theorem toolCallsLoopAux_always_toolcalls {α : Type} (env : ToolEnv α)
    (chat : List PyMsg → FormattedResponse) (maxFC : Nat)
    (hchat : ∀ ms, hasToolCalls (chat ms) = true) :
    ∀ k it wm reqs resp, maxFC + 1 - it = k → hasToolCalls resp = true →
      ∃ last, toolCallsLoopAux env chat maxFC wm it reqs resp =
          (.errorWrap (loopErrorText maxFC) last, reqs + k) ∧ hasToolCalls last = true := by
  intro k
  induction k with
  | zero =>
    intro it wm reqs resp hk hresp
    rw [toolCallsLoopAux]
    rw [dif_neg (by intro hc; omega)]
    rw [if_pos ⟨by omega, hresp⟩]
    exact ⟨resp, by simp, hresp⟩
  | succ k ih =>
    intro it wm reqs resp hk hresp
    rw [toolCallsLoopAux]
    rw [dif_pos ⟨by omega, hresp⟩]
    obtain ⟨last, heq, hlast⟩ := ih (it + 1) (extendWorkingMessages env wm resp) (reqs + 1)
      (chat (extendWorkingMessages env wm resp)) (by omega) (hchat _)
    refine ⟨last, ?_, hlast⟩
    rw [heq]
    congr 1
    omega

/-- C4 (amended): the tool-call loop itself issues at most
`max_function_calls + 1` completion requests — so INCLUDING the initial
completion that produced the starting response, the total is at most
`max_function_calls + 2`, one more than the claim states.  When the
model emits tool calls on every round, the loop terminates after
exactly `max_function_calls + 1` in-loop requests and returns the
error wrap carrying the limit text and the last response (which still
has tool calls). -/
theorem c4_loop_requests {α : Type} (env : ToolEnv α)
    (chat : List PyMsg → FormattedResponse) (maxFC : Nat) (messages : List PyMsg)
    (response : FormattedResponse) :
    (execToolCallsLoop env chat maxFC messages response).2 ≤ maxFC + 1 ∧
    ((∀ ms, hasToolCalls (chat ms) = true) → hasToolCalls response = true →
      ∃ last, execToolCallsLoop env chat maxFC messages response =
          (.errorWrap (loopErrorText maxFC) last, maxFC + 1) ∧
        hasToolCalls last = true) := by
  constructor
  · have h := toolCallsLoopAux_reqs_le env chat maxFC (maxFC + 1) 0 messages 0 response
      (by omega)
    simpa [execToolCallsLoop] using h
  · intro hchat hresp
    obtain ⟨last, heq, hlast⟩ := toolCallsLoopAux_always_toolcalls env chat maxFC hchat
      (maxFC + 1) 0 messages 0 response (by omega) hresp
    refine ⟨last, ?_, hlast⟩
    simpa [execToolCallsLoop] using heq

/-- C4 witness: concrete loop with `max_function_calls = 0` and a
provider that always emits tool calls. -/
theorem c4_loop_requests_witness :
    (execToolCallsLoop c4Env c4Chat 0 [] c4Resp).2 ≤ 1 ∧
    ∃ last, execToolCallsLoop c4Env c4Chat 0 [] c4Resp =
        (.errorWrap (loopErrorText 0) last, 1) ∧ hasToolCalls last = true := by
  refine ⟨(c4_loop_requests c4Env c4Chat 0 [] c4Resp).1, ?_⟩
  exact (c4_loop_requests c4Env c4Chat 0 [] c4Resp).2 (fun _ => rfl) rfl

/-- C4 counterexample: with `max_function_calls = 0` and a provider
emitting tool calls every round, the loop issues 1 request, so
including the initial completion the total number of provider
completion requests is 2, refuting the claimed bound of
`max_function_calls + 1 = 1`. -/
theorem c4_counterexample :
    (execToolCallsLoop c4Env c4Chat 0 [] c4Resp).2 + 1 = 2 ∧ ¬ (2 ≤ 0 + 1) := by
  obtain ⟨last, heq, _⟩ := toolCallsLoopAux_always_toolcalls c4Env c4Chat 0
    (fun _ => rfl) 1 0 [] 0 c4Resp rfl rfl
  refine ⟨?_, by omega⟩
  unfold execToolCallsLoop
  rw [heq]

/-! ## Pump helper lemmas -/

theorem assocLookupAgent_mem (agents : List (Option String × Agent)) (k : Option String)
    (a : Agent) (h : assocLookupAgent agents k = some a) : (k, a) ∈ agents := by
  induction agents with
  | nil => cases h
  | cons p rest ih =>
    obtain ⟨k2, a2⟩ := p
    by_cases hk : k2 = k
    · subst hk
      simp only [assocLookupAgent, if_true, eq_self_iff_true, Option.some.injEq] at h
      subst h
      exact List.mem_cons_self _ _
    · simp only [assocLookupAgent, if_neg hk] at h
      exact List.mem_cons_of_mem _ (ih h)

theorem get_agent_mem (agents : List (Option String × Agent)) (k : Option String)
    (a : Agent) (h : Task.get_agent agents k = some a) : ∃ key, (key, a) ∈ agents := by
  cases k with
  | none =>
    unfold Task.get_agent at h
    cases he : assocLookupAgent agents (some "Eric") with
    | some a2 =>
      rw [he] at h
      simp only [Option.some.injEq] at h
      subst h
      exact ⟨some "Eric", assocLookupAgent_mem _ _ _ he⟩
    | none =>
      rw [he] at h
      cases agents with
      | nil => cases h
      | cons p rest =>
        simp at h
        exact ⟨p.1, by rw [← h]; exact List.mem_cons_self _ _⟩
  | some n => exact ⟨some n, assocLookupAgent_mem _ _ _ h⟩

/-! ## C1 — exception capture in the pump -/

/-- C1: contrary to the claim, an exception DOES escape `Task.invoke`:
on the very first dequeued message the history-snapshot write evaluates
`message.model_dump()`, a method `AgentMessage` does not define (its
serializer is `to_dict`), and the resulting AttributeError propagates
out of the pump before any routing or agent invocation happens. -/
theorem c1_snapshot_raises :
    Task.invoke c1Cfg 50 "hello" =
      .raised "AttributeError: AgentMessage object has no attribute model_dump"
        { pool := [], history := [initialUserMessage c1Cfg "hello" 0],
          iterations := 0, freshCounter := 1 } := rfl

/-! ## C5 — unknown receiver handling -/

/-- C5 (amended): with the intended `to_dict` snapshot serialization
(the shipped `model_dump` call raises first — see the counterexample),
dequeuing a message whose receiver is not a registered agent makes the
pump synthesize a system message addressed to the coordinator "Eric"
reporting the missing agent, enqueue it at the back of the pool, and
continue the loop without aborting (note: this branch does not
increment `iterations`). -/
theorem c5_unknown_receiver_amended (cfg : TaskCfg) (s : TaskState) (fuel : Nat)
    (m : AgentMessage) (rest : List AgentMessage)
    (hpool : s.pool = m :: rest) (hit : s.iterations < MAX_ITERATIONS)
    (hdump : ∃ v, cfg.dump (s.history ++ [m]) = .ok v)
    (hrecv : ¬ m.receiver = some "user")
    (hnf : Task.get_agent cfg.agents m.receiver = none) :
    processAux cfg (fuel + 1) s =
      processAux cfg fuel
        { pool := rest ++ [notFoundMessage cfg m.receiver s.freshCounter]
          history := s.history ++ [m]
          iterations := s.iterations
          freshCounter := s.freshCounter + 1 } ∧
    (notFoundMessage cfg m.receiver s.freshCounter).sender = some "system" ∧
    (notFoundMessage cfg m.receiver s.freshCounter).receiver = some "Eric" ∧
    (notFoundMessage cfg m.receiver s.freshCounter).content =
      .pyStr ("智能体 " ++ pyStrOfOpt m.receiver ++ " 未找到") ∧
    (notFoundMessage cfg m.receiver s.freshCounter).task_id = some cfg.task_id := by
  obtain ⟨v, hv⟩ := hdump
  refine ⟨?_, rfl, rfl, rfl, rfl⟩
  simp only [processAux, if_pos hit, hpool, hv, if_neg hrecv, hnf]

/-- C5 witness: the amended step at a concrete unknown-receiver
message. -/
theorem c5_unknown_receiver_witness :
    processAux c5CfgFixed 1 c5State =
      processAux c5CfgFixed 0
        { pool := [] ++ [notFoundMessage c5CfgFixed ghostMessage.receiver c5State.freshCounter]
          history := [] ++ [ghostMessage]
          iterations := c5State.iterations
          freshCounter := c5State.freshCounter + 1 } ∧
    (notFoundMessage c5CfgFixed ghostMessage.receiver c5State.freshCounter).sender =
      some "system" ∧
    (notFoundMessage c5CfgFixed ghostMessage.receiver c5State.freshCounter).receiver =
      some "Eric" ∧
    (notFoundMessage c5CfgFixed ghostMessage.receiver c5State.freshCounter).content =
      .pyStr ("智能体 " ++ pyStrOfOpt ghostMessage.receiver ++ " 未找到") ∧
    (notFoundMessage c5CfgFixed ghostMessage.receiver c5State.freshCounter).task_id =
      some c5CfgFixed.task_id :=
  c5_unknown_receiver_amended c5CfgFixed c5State 0 ghostMessage [] rfl (by decide)
    ⟨[ghostMessage.to_dict], rfl⟩ (by decide) rfl

/-- C5 counterexample: on the shipped code, dequeuing a message whose
receiver names an absent agent does NOT synthesize-and-continue — the
snapshot write raises first and the pump aborts with nothing
enqueued. -/
theorem c5_counterexample :
    processAux c5CfgFaithful 2 c5State =
      .raised "AttributeError: AgentMessage object has no attribute model_dump"
        { pool := [], history := [ghostMessage], iterations := 0, freshCounter := 0 } ∧
    (∀ m s2, processAux c5CfgFaithful 2 c5State ≠ .result m s2) := by
  refine ⟨rfl, ?_⟩
  intro m s2 h
  rw [show processAux c5CfgFaithful 2 c5State =
      PumpOutcome.raised "AttributeError: AgentMessage object has no attribute model_dump"
        { pool := [], history := [ghostMessage], iterations := 0, freshCounter := 0 }
    from rfl] at h
  exact PumpOutcome.noConfusion h

/-! ## C10 — None receiver resolution and dispatch -/

/-- C10 (amended): `get_agent(None)` resolves to the agent registered
as "Eric" when present, otherwise to the first registered agent in
insertion order, and yields None only for an empty agent set; and —
with the intended `to_dict` snapshot serialization (the shipped
`model_dump` call raises first, see the counterexample) — a dequeued
message with a None receiver is dispatched to that resolved
coordinator like any routable message (no not-found message is
synthesized). -/
theorem c10_get_agent_none_amended :
    (∀ agents a, assocLookupAgent agents (some "Eric") = some a →
        Task.get_agent agents none = some a) ∧
    (∀ (agents : List (Option String × Agent)) k a rest,
        assocLookupAgent agents (some "Eric") = none →
        agents = (k, a) :: rest → Task.get_agent agents none = some a) ∧
    (Task.get_agent [] none = none) ∧
    (∀ agents, agents ≠ ([] : List (Option String × Agent)) →
        (Task.get_agent agents none).isSome = true) ∧
    (∀ (cfg : TaskCfg) (s : TaskState) fuel m rest ag r,
        s.pool = m :: rest → s.iterations < MAX_ITERATIONS →
        (∃ v, cfg.dump (s.history ++ [m]) = .ok v) →
        m.receiver = none →
        Task.get_agent cfg.agents none = some ag →
        ag.behavior (s.history ++ [m]) m = .ok (some r) →
        processAux cfg (fuel + 1) s =
          processAux cfg fuel
            { pool := rest ++ [r]
              history := s.history ++ [m]
              iterations := s.iterations + 1
              freshCounter := s.freshCounter }) := by
  refine ⟨?_, ?_, rfl, ?_, ?_⟩
  · intro agents a h
    unfold Task.get_agent
    rw [h]
  · intro agents k a rest h heq
    subst heq
    unfold Task.get_agent
    rw [h]
    rfl
  · intro agents h
    unfold Task.get_agent
    cases he : assocLookupAgent agents (some "Eric") with
    | some a => rfl
    | none =>
      cases agents with
      | nil => exact absurd rfl h
      | cons p rest => rfl
  · intro cfg s fuel m rest ag r hpool hit hdump hrecv hag hbeh
    obtain ⟨v, hv⟩ := hdump
    have hru : ¬ m.receiver = some "user" := by rw [hrecv]; exact fun hc => by cases hc
    simp only [processAux, if_pos hit, hpool, hv, if_neg hru, hrecv, hag, hbeh]
    rfl

/-- C10 witness: the lookup and dispatch conjuncts at the concrete
single-coordinator agent set and a concrete receiver-less message. -/
theorem c10_get_agent_none_witness :
    Task.get_agent c1Agents none = some ericAgent ∧
    processAux c10CfgFixed 1 c10State =
      processAux c10CfgFixed 0
        { pool := [] ++ [noReceiverMessage]
          history := [] ++ [noReceiverMessage]
          iterations := c10State.iterations + 1
          freshCounter := c10State.freshCounter } := by
  constructor
  · exact c10_get_agent_none_amended.1 c1Agents ericAgent rfl
  · exact c10_get_agent_none_amended.2.2.2.2 c10CfgFixed c10State 0 noReceiverMessage []
      ericAgent noReceiverMessage rfl (by decide) ⟨[noReceiverMessage.to_dict], rfl⟩ rfl rfl rfl

/-- C10 counterexample: on the shipped code the receiver-None message
is NOT silently dispatched to the coordinator — the snapshot write
raises on the dequeue, before `get_agent` is consulted. -/
theorem c10_counterexample :
    processAux c10CfgFaithful 2 c10State =
      .raised "AttributeError: AgentMessage object has no attribute model_dump"
        { pool := [], history := [noReceiverMessage], iterations := 0, freshCounter := 0 } ∧
    (∀ m s2, processAux c10CfgFaithful 2 c10State ≠ .result m s2) := by
  refine ⟨rfl, ?_⟩
  intro m s2 h
  rw [show processAux c10CfgFaithful 2 c10State =
      PumpOutcome.raised "AttributeError: AgentMessage object has no attribute model_dump"
        { pool := [], history := [noReceiverMessage], iterations := 0, freshCounter := 0 }
    from rfl] at h
  exact PumpOutcome.noConfusion h

/-! ## C3 — bounded-iteration timeout -/

theorem processAux_timeout (cfg : TaskCfg)
    (hdump : ∀ h, ∃ v, cfg.dump h = .ok v)
    (hbeh : ∀ k ag, (k, ag) ∈ cfg.agents → ∀ hist m, ∃ r,
        ag.behavior hist m = .ok (some r) ∧ ¬ r.receiver = some "user" ∧
        (Task.get_agent cfg.agents r.receiver).isSome = true) :
    ∀ n (s : TaskState) fuel, n ≤ fuel → s.iterations + n = MAX_ITERATIONS →
      s.pool ≠ [] →
      (∀ m ∈ s.pool, ¬ m.receiver = some "user" ∧
        (Task.get_agent cfg.agents m.receiver).isSome = true) →
      ∃ r s2, processAux cfg fuel s = .result r s2 ∧
        r.sender = some "system" ∧ r.receiver = some "user" ∧
        r.task_id = some cfg.task_id ∧
        r.content = .pyStr ("任务处理超时，已处理 " ++
          toString s2.history.length ++ " 条消息") ∧
        s2.history.length = s.history.length + n ∧
        s2.iterations = MAX_ITERATIONS := by
  intro n
  induction n with
  | zero =>
    intro s fuel hf hit hpool hmsgs
    have hge : ¬ s.iterations < MAX_ITERATIONS := by omega
    have hbody : processAux cfg fuel s =
        .result (timeoutMessage cfg s.history.length s.freshCounter)
          { s with freshCounter := s.freshCounter + 1 } := by
      cases fuel with
      | zero => simp only [processAux, if_neg hge]
      | succ f => simp only [processAux, if_neg hge]
    refine ⟨_, _, hbody, rfl, rfl, rfl, rfl, by simp, by show s.iterations = MAX_ITERATIONS; omega⟩
  | succ n ih =>
    intro s fuel hf hit hpool hmsgs
    have hlt : s.iterations < MAX_ITERATIONS := by omega
    cases fuel with
    | zero => omega
    | succ f =>
      obtain ⟨m, rest, hpe⟩ : ∃ m rest, s.pool = m :: rest := by
        cases hp : s.pool with
        | nil => exact absurd hp hpool
        | cons a b => exact ⟨a, b, rfl⟩
      obtain ⟨hm1, hm2⟩ := hmsgs m (by rw [hpe]; exact List.mem_cons_self _ _)
      obtain ⟨ag, hag⟩ : ∃ ag, Task.get_agent cfg.agents m.receiver = some ag := by
        cases hg : Task.get_agent cfg.agents m.receiver with
        | none => rw [hg] at hm2; cases hm2
        | some a => exact ⟨a, rfl⟩
      obtain ⟨key, hkey⟩ := get_agent_mem _ _ _ hag
      obtain ⟨r, hr1, hr2, hr3⟩ := hbeh key ag hkey (s.history ++ [m]) m
      obtain ⟨v, hv⟩ := hdump (s.history ++ [m])
      have hstep : processAux cfg (f + 1) s =
          processAux cfg f
            { pool := rest ++ [r], history := s.history ++ [m],
              iterations := s.iterations + 1, freshCounter := s.freshCounter } := by
        simp only [processAux, if_pos hlt, hpe, hv, if_neg hm1, hag, hr1]
      rw [hstep]
      obtain ⟨r2, s2, hps, h1, h2, h3, h4, h5, h6⟩ := ih
        { pool := rest ++ [r], history := s.history ++ [m],
          iterations := s.iterations + 1, freshCounter := s.freshCounter } f
        (by omega)
        (by show s.iterations + 1 + n = MAX_ITERATIONS; omega)
        (by show rest ++ [r] ≠ []; simp)
        (by
          intro x hx
          rcases List.mem_append.mp hx with hin | hin
          · exact hmsgs x (by rw [hpe]; exact List.mem_cons_of_mem _ hin)
          · rw [List.mem_singleton.mp hin]
            exact ⟨hr2, hr3⟩)
      refine ⟨r2, s2, hps, h1, h2, h3, h4, ?_, h6⟩
      simp only [List.length_append, List.length_cons, List.length_nil] at h5
      omega

/-- C3 (amended): provided the snapshot serialization is the intended
total `to_dict` one (the shipped `model_dump` call raises — see the
counterexample) and every dequeued receiver resolves to a registered
agent, a task whose agents always return a non-null, non-user-addressed
reply pumps for exactly `MAX_ITERATIONS = 50` iterations and returns a
synthetic message with sender "system", receiver "user", the task's
`task_id`, and content reporting `len(history)` processed messages,
where `len(history) = 50`; the iteration counter ends exactly at 50. -/
theorem c3_timeout_amended (cfg : TaskCfg)
    (hdump : ∀ h, ∃ v, cfg.dump h = .ok v)
    (hbeh : ∀ k ag, (k, ag) ∈ cfg.agents → ∀ hist m, ∃ r,
        ag.behavior hist m = .ok (some r) ∧ ¬ r.receiver = some "user" ∧
        (Task.get_agent cfg.agents r.receiver).isSome = true)
    (heric : (Task.get_agent cfg.agents (some "Eric")).isSome = true)
    (userInput : String) (fuel : Nat) (hfuel : MAX_ITERATIONS ≤ fuel) :
    ∃ r s2, Task.invoke cfg fuel userInput = .result r s2 ∧
      r.sender = some "system" ∧ r.receiver = some "user" ∧
      r.task_id = some cfg.task_id ∧
      r.content = .pyStr ("任务处理超时，已处理 " ++
        toString s2.history.length ++ " 条消息") ∧
      s2.history.length = MAX_ITERATIONS ∧
      s2.iterations = MAX_ITERATIONS := by
  obtain ⟨r, s2, hps, h1, h2, h3, h4, h5, h6⟩ := processAux_timeout cfg hdump hbeh
    MAX_ITERATIONS
    { pool := [initialUserMessage cfg userInput 0], history := [],
      iterations := 0, freshCounter := 1 }
    fuel hfuel (by show 0 + MAX_ITERATIONS = MAX_ITERATIONS; omega)
    (by show [initialUserMessage cfg userInput 0] ≠ []; simp)
    (by
      intro x hx
      rw [List.mem_singleton.mp hx]
      exact ⟨by show ¬ (some "Eric" = some "user"); simp, heric⟩)
  exact ⟨r, s2, hps, h1, h2, h3, h4, by simpa using h5, h6⟩

/-- C3 witness: the amended theorem applied to the concrete ping-pong
coordinator with the intended serializer. -/
theorem c3_timeout_witness :
    ∃ r s2, Task.invoke c3CfgFixed 50 "go" = .result r s2 ∧
      r.sender = some "system" ∧ r.receiver = some "user" ∧
      r.task_id = some c3CfgFixed.task_id ∧
      r.content = .pyStr ("任务处理超时，已处理 " ++
        toString s2.history.length ++ " 条消息") ∧
      s2.history.length = MAX_ITERATIONS ∧
      s2.iterations = MAX_ITERATIONS := by
  refine c3_timeout_amended c3CfgFixed (fun h => ⟨h.map AgentMessage.to_dict, rfl⟩) ?_ rfl
    "go" 50 (by decide)
  intro k ag hk hist m
  have hk2 : ag = pingAgent := by
    simp only [c3CfgFixed, c3Agents, List.mem_singleton, Prod.mk.injEq] at hk
    exact hk.2
  subst hk2
  exact ⟨pingMessage, rfl, by decide, rfl⟩

/-- C3 counterexample: the ping-pong scenario satisfies the claim's
hypotheses (agents always reply, never to "user"), yet on the shipped
code the pump does not run to the 50-iteration timeout — it raises on
the first dequeued message. -/
theorem c3_counterexample :
    Task.invoke c3CfgFaithful 50 "go" =
      .raised "AttributeError: AgentMessage object has no attribute model_dump"
        { pool := [], history := [initialUserMessage c3CfgFaithful "go" 0],
          iterations := 0, freshCounter := 1 } ∧
    (∀ m s2, Task.invoke c3CfgFaithful 50 "go" ≠ .result m s2) := by
  refine ⟨rfl, ?_⟩
  intro m s2 h
  rw [show Task.invoke c3CfgFaithful 50 "go" =
      PumpOutcome.raised "AttributeError: AgentMessage object has no attribute model_dump"
        { pool := [], history := [initialUserMessage c3CfgFaithful "go" 0],
          iterations := 0, freshCounter := 1 }
    from rfl] at h
  exact PumpOutcome.noConfusion h

/-! ## C9 — internal task_id vs caller-supplied task_id -/

theorem processAux_history_tagged (cfg : TaskCfg)
    (hbeh : ∀ k ag, (k, ag) ∈ cfg.agents → ∀ hist m r,
        ag.behavior hist m = .ok (some r) → r.task_id = some cfg.task_id) :
    ∀ fuel (s : TaskState),
      (∀ m ∈ s.pool, m.task_id = some cfg.task_id) →
      (∀ m ∈ s.history, m.task_id = some cfg.task_id) →
      ∀ m ∈ (processAux cfg fuel s).stateOf.history, m.task_id = some cfg.task_id := by
  intro fuel
  induction fuel with
  | zero =>
    intro s hpool hhist
    by_cases hlt : s.iterations < MAX_ITERATIONS
    · simp only [processAux, if_pos hlt, PumpOutcome.stateOf]
      exact hhist
    · simp only [processAux, if_neg hlt, PumpOutcome.stateOf]
      exact hhist
  | succ f ih =>
    intro s hpool hhist
    by_cases hlt : s.iterations < MAX_ITERATIONS
    · cases hpe : s.pool with
      | nil =>
        simp only [processAux, if_pos hlt, hpe]
        refine ih _ ?_ hhist
        intro x hx
        exact absurd hx (List.not_mem_nil x)
      | cons m rest =>
        have hm : m.task_id = some cfg.task_id :=
          hpool m (by rw [hpe]; exact List.mem_cons_self _ _)
        have hrest : ∀ x ∈ rest, x.task_id = some cfg.task_id := fun x hx =>
          hpool x (by rw [hpe]; exact List.mem_cons_of_mem _ hx)
        have hh2 : ∀ x ∈ s.history ++ [m], x.task_id = some cfg.task_id := by
          intro x hx
          rcases List.mem_append.mp hx with h | h
          · exact hhist x h
          · rw [List.mem_singleton.mp h]; exact hm
        cases hd : cfg.dump (s.history ++ [m]) with
        | error e =>
          simp only [processAux, if_pos hlt, hpe, hd, PumpOutcome.stateOf]
          exact hh2
        | ok v =>
          by_cases hu : m.receiver = some "user"
          · simp only [processAux, if_pos hlt, hpe, hd, if_pos hu, PumpOutcome.stateOf]
            exact hh2
          · cases hg : Task.get_agent cfg.agents m.receiver with
            | none =>
              simp only [processAux, if_pos hlt, hpe, hd, if_neg hu, hg]
              refine ih _ ?_ hh2
              intro x hx
              rcases List.mem_append.mp hx with h | h
              · exact hrest x h
              · rw [List.mem_singleton.mp h]; rfl
            | some ag =>
              cases hb : ag.behavior (s.history ++ [m]) m with
              | error e =>
                simp only [processAux, if_pos hlt, hpe, hd, if_neg hu, hg, hb]
                refine ih _ ?_ hh2
                intro x hx
                rcases List.mem_append.mp hx with h | h
                · exact hrest x h
                · rw [List.mem_singleton.mp h]; rfl
              | ok orep =>
                cases orep with
                | none =>
                  simp only [processAux, if_pos hlt, hpe, hd, if_neg hu, hg, hb,
                    PumpOutcome.stateOf]
                  exact hh2
                | some r =>
                  obtain ⟨key, hkey⟩ := get_agent_mem _ _ _ hg
                  have hr : r.task_id = some cfg.task_id := hbeh key ag hkey _ _ _ hb
                  simp only [processAux, if_pos hlt, hpe, hd, if_neg hu, hg, hb]
                  refine ih _ ?_ hh2
                  intro x hx
                  rcases List.mem_append.mp hx with h | h
                  · exact hrest x h
                  · rw [List.mem_singleton.mp h]; exact hr
    · simp only [processAux, if_neg hlt, PumpOutcome.stateOf]
      exact hhist

/-- C9 (confirmed): a caller-supplied `task_id` only keys the swarm's
task map — the created `Task` draws its own fresh uuid: its `task_id`
equals the fresh uuid whatever id the caller supplied; the bound
agents, the initial user message, every pump-created history entry
(and, inductively, every history entry when agents tag replies with
their bound task id) and the snapshot path all carry the internal
uuid. -/
theorem c9_internal_task_id :
    (∀ (sw : Swarm) fk ft t, assocLookupTask sw.tasks t = none →
        (Swarm.invokeSetup sw fk ft (some t)).2.2.task_id = ft ∧
        (Swarm.invokeSetup sw fk ft (some t)).1.tasks =
          sw.tasks ++ [(t, SwarmTask.new sw.agents ft)]) ∧
    (∀ (sw : Swarm) fk ft tA tB, assocLookupTask sw.tasks tA = none →
        assocLookupTask sw.tasks tB = none →
        (Swarm.invokeSetup sw fk ft (some tA)).2.2.task_id =
          (Swarm.invokeSetup sw fk ft (some tB)).2.2.task_id) ∧
    (∀ (sw : Swarm) fk ft, assocLookupTask sw.tasks fk = none →
        (Swarm.invokeSetup sw fk ft none).2.2.task_id = ft) ∧
    (∀ (cfg : TaskCfg) input k,
        (initialUserMessage cfg input k).task_id = some cfg.task_id) ∧
    (∀ agents ft p, p ∈ (SwarmTask.new agents ft).boundAgents → p.2.taskId = some ft) ∧
    (∀ (sw : Swarm) fk ft t, assocLookupTask sw.tasks t = none →
        messageHistoryPath (Swarm.invokeSetup sw fk ft (some t)).2.2.task_id =
          ".data/" ++ ft ++ "/message_history.json") ∧
    (∀ (cfg : TaskCfg),
        (∀ k ag, (k, ag) ∈ cfg.agents → ∀ hist m r,
            ag.behavior hist m = .ok (some r) → r.task_id = some cfg.task_id) →
        ∀ fuel (s : TaskState),
          (∀ m ∈ s.pool, m.task_id = some cfg.task_id) →
          (∀ m ∈ s.history, m.task_id = some cfg.task_id) →
          ∀ m ∈ (processAux cfg fuel s).stateOf.history,
            m.task_id = some cfg.task_id) := by
  refine ⟨?_, ?_, ?_, fun cfg input k => rfl, ?_, ?_, processAux_history_tagged⟩
  · intro sw fk ft t h
    simp [Swarm.invokeSetup, h, SwarmTask.new]
  · intro sw fk ft tA tB hA hB
    simp [Swarm.invokeSetup, hA, hB]
  · intro sw fk ft h
    simp [Swarm.invokeSetup, h, SwarmTask.new]
  · intro agents ft p hp
    obtain ⟨q, hq, rfl⟩ := List.mem_map.mp hp
    rfl
  · intro sw fk ft t h
    simp [Swarm.invokeSetup, h, SwarmTask.new, messageHistoryPath]

/-- C9 witness: the conjuncts at a concrete swarm, a concrete
caller-supplied key and concrete fresh uuids. -/
theorem c9_internal_task_id_witness :
    (Swarm.invokeSetup c9Swarm "fk-uuid" "ft-uuid" (some "client-key")).2.2.task_id =
      "ft-uuid" ∧
    (Swarm.invokeSetup c9Swarm "fk-uuid" "ft-uuid" (some "client-key")).1.tasks =
      [("client-key", SwarmTask.new c9Swarm.agents "ft-uuid")] ∧
    (initialUserMessage c1Cfg "hi" 0).task_id = some c1Cfg.task_id ∧
    messageHistoryPath
        (Swarm.invokeSetup c9Swarm "fk-uuid" "ft-uuid" (some "client-key")).2.2.task_id =
      ".data/ft-uuid/message_history.json" := by
  refine ⟨(c9_internal_task_id.1 c9Swarm "fk-uuid" "ft-uuid" "client-key" rfl).1, ?_, ?_, ?_⟩
  · exact ((c9_internal_task_id.1 c9Swarm "fk-uuid" "ft-uuid" "client-key" rfl).2).trans rfl
  · exact c9_internal_task_id.2.2.2.1 c1Cfg "hi" 0
  · exact (c9_internal_task_id.2.2.2.2.2.1 c9Swarm "fk-uuid" "ft-uuid" "client-key" rfl).trans
      rfl

end Village
